import Mathlib

set_option linter.unusedVariables false

namespace Spec2Proof

/-! Shallow embedding of the provider abstraction, factory and automatic failover
policy of the universal chatbot repository.  String helpers model the Python
operations used by the source (str.lower and the substring operator in); the
provider ids and indicator phrases of this repository are ASCII, where these
models agree with CPython. -/

/-- Lower-casing of one character as CPython str.lower acts on the ASCII range:
codepoints 65 to 90 map to 97 to 122, all other characters are unchanged. -/
def lowerChar (c : Char) : Char :=
  if 65 ≤ c.toNat ∧ c.toNat ≤ 90 then Char.ofNat (c.toNat + 32) else c

/-- Model of the Python method str.lower. -/
def pyLower (s : String) : String :=
  String.mk (s.data.map lowerChar)

/-- Tests whether the first character list is an initial segment of the second. -/
def leadMatch : List Char → List Char → Bool
  | [], _ => true
  | _ :: _, [] => false
  | a :: as, b :: bs => a == b && leadMatch as bs

/-- Tests whether sub occurs as a contiguous run inside the second list. -/
def occursIn (sub : List Char) : List Char → Bool
  | [] => leadMatch sub []
  | c :: cs => leadMatch sub (c :: cs) || occursIn sub cs

/-- Model of the Python operator sub in hay on strings: substring containment. -/
def containsSubstr (hay sub : String) : Bool :=
  occursIn sub.data hay.data

/-- Role of a chat message: HumanMessage or AIMessage from langchain.schema. -/
inductive Role where
  | human
  | ai
  deriving DecidableEq, Repr

/-- Chat message: a role plus opaque content text. -/
structure Message where
  role : Role
  content : String
  deriving DecidableEq, Repr

/-- Constructor for a HumanMessage. -/
def Message.human (c : String) : Message := ⟨Role.human, c⟩

/-- Constructor for an AIMessage. -/
def Message.ai (c : String) : Message := ⟨Role.ai, c⟩

/-- Fixed indicator list of UniversalChatBot.is_quota_error
(src/universal_chatbot.py lines 563 to 576). -/
def quota_indicators : List String :=
  ["quota",
   "rate limit",
   "429",
   "exceeded your current quota",
   "requests per day",
   "free tier",
   "billing details",
   "resourceexhausted",
   "quota_metric",
   "generativelanguage.googleapis.com/generate_content_free_tier_requests",
   "generaterequest",
   "quota_value"]

/-- Embedding of UniversalChatBot.is_quota_error (src/universal_chatbot.py lines
552 to 578): lower-case the error text and test every indicator for substring
containment; the result is true when any indicator occurs. -/
def is_quota_error (error_message : String) : Bool :=
  let error_lower := pyLower error_message
  quota_indicators.any (fun indicator => containsSubstr error_lower indicator)

/-- Behaviour of the underlying langchain client (self.model.invoke): either the
content of the AIMessage the backend returns, or the text of the exception it
raises.  The backend is an opaque remote call, so it is a parameter. -/
def Backend : Type := List Message → Except String String

/-- Embedding of GeminiModel.invoke (src/models/gemini_model.py lines 35 to 41):
a backend exception is caught and turned into a normally returned AIMessage whose
content is the word Error, a colon and the exception text. -/
def GeminiModel.invoke (backend : Backend) (messages : List Message) : Except String Message :=
  match backend messages with
  | Except.ok content => Except.ok (Message.ai content)
  | Except.error e => Except.ok (Message.ai ("Error: " ++ e))

/-- Embedding of ClaudeModel.invoke (src/models/claude_model.py lines 46 to 52):
same shape as the Gemini adapter, exceptions are swallowed into an AIMessage. -/
def ClaudeModel.invoke (backend : Backend) (messages : List Message) : Except String Message :=
  match backend messages with
  | Except.ok content => Except.ok (Message.ai content)
  | Except.error e => Except.ok (Message.ai ("Error: " ++ e))

/-- Embedding of OpenAIModel.invoke (src/models/openai_model.py lines 48 to 55):
a backend exception is re-raised unchanged. -/
def OpenAIModel.invoke (backend : Backend) (messages : List Message) : Except String Message :=
  match backend messages with
  | Except.ok content => Except.ok (Message.ai content)
  | Except.error e => Except.error e

/-- Embedding of GroqModel.invoke (src/models/groq_model.py lines 50 to 57):
a backend exception is re-raised unchanged. -/
def GroqModel.invoke (backend : Backend) (messages : List Message) : Except String Message :=
  match backend messages with
  | Except.ok content => Except.ok (Message.ai content)
  | Except.error e => Except.error e

/-- Lookup in a Python dict modelled as an association list in insertion order. -/
def dictLookup {α : Type} (k : String) : List (String × α) → Option α
  | [] => none
  | (k1, v1) :: rest => if k1 = k then some v1 else dictLookup k rest

/-- Python dict assignment d[k] = v: replaces the value of an existing key in
place, otherwise appends the new key at the end (insertion order semantics). -/
def dictInsert {α : Type} (k : String) (v : α) : List (String × α) → List (String × α)
  | [] => [(k, v)]
  | (k1, v1) :: rest =>
      if k1 = k then (k1, v) :: rest else (k1, v1) :: dictInsert k v rest

/-- Static description of a registered adapter class, an entry of
ModelFactory._models.  The flag records whether the import of the backend client
library at the top of the defining module succeeded, for example CLAUDE_AVAILABLE
in src/models/claude_model.py; the guard raising ImportError when the dependency
is missing lives in the __init__ method of the class. -/
structure AdapterClass where
  dependencyLoaded : Bool
  deriving DecidableEq, Repr

/-- Registry state of ModelFactory: the class-level dicts _models and
_default_models (src/models/model_factory.py lines 17 to 29).  The value type of
the registry is a type parameter standing for the adapter class. -/
structure Factory (α : Type) where
  models : List (String × α)
  default_models : List (String × String)

/-- Result of ModelFactory.create_model up to the instantiation of the class: the
chosen class together with the model name it is instantiated with, or the
exception raised before instantiation.  A ValueError names the unsupported
provider and the joined registry keys; a KeyError occurs when no model name is
given and _default_models has no entry for the provider. -/
inductive CreateResult (α : Type) where
  | ok (cls : α) (model_name : String)
  | valueError (msg : String)
  | keyError (key : String)
  deriving DecidableEq, Repr

/-- Embedding of ModelFactory.create_model (src/models/model_factory.py lines 31
to 68) up to the class instantiation: the provider id is lower-cased, an unknown
provider raises ValueError, a missing model name falls back to the
_default_models entry and raises KeyError when there is none.  The subsequent
call of the class is a function of the returned class and model name, so the ok
payload determines the created adapter.  The quote characters around the provider
id in the original ValueError text are omitted here. -/
def create_model {α : Type} (F : Factory α) (provider : String)
    (model_name : Option String) : CreateResult α :=
  let provider := pyLower provider
  match dictLookup provider F.models with
  | none =>
      CreateResult.valueError
        ("Unsupported provider " ++ provider ++ ". Available: " ++
          String.intercalate ", " (F.models.map (fun kv => kv.1)))
  | some cls =>
      match model_name with
      | some m => CreateResult.ok cls m
      | none =>
          match dictLookup provider F.default_models with
          | some m => CreateResult.ok cls m
          | none => CreateResult.keyError provider

/-- Embedding of ModelFactory.get_available_providers (src/models/model_factory.py
lines 70 to 73): the list of registry keys in insertion order. -/
def get_available_providers {α : Type} (F : Factory α) : List String :=
  F.models.map (fun kv => kv.1)

/-- Embedding of ModelFactory.get_provider_models (src/models/model_factory.py
lines 75 to 97): lower-case the id, return the empty list for an unknown
provider, otherwise the static catalog of the class.  get_available_models reads
no instance state, so the catalog is a function of the class, passed as a
parameter. -/
def get_provider_models {α μ : Type} (F : Factory α) (catalogOf : α → List μ)
    (provider : String) : List μ :=
  let provider := pyLower provider
  match dictLookup provider F.models with
  | none => []
  | some cls => catalogOf cls

/-- Embedding of ModelFactory.register_model (src/models/model_factory.py lines 99
to 111): the class is stored under the lower-cased provider id.  The subclass
check of the source is enforced here by the type of the value. -/
def register_model {α : Type} (F : Factory α) (provider : String)
    (model_class : α) : Factory α :=
  { F with models := dictInsert (pyLower provider) model_class F.models }

/-- Embedding of ModelFactory.is_provider_available (src/models/model_factory.py
lines 113 to 137).  The source looks up the registry and then evaluates
model_class.__new__(model_class).  __new__ allocates without running __init__,
and the guard that raises ImportError on a missing client library lives in
__init__ (src/models/claude_model.py lines 22 to 27, src/models/openai_model.py
lines 24 to 29), so no ImportError can reach the except ImportError branch and
every registered provider yields True, whatever the state of its dependency; the
catch-all branch for other exceptions returns True as well. -/
def is_provider_available {α : Type} (F : Factory α) (provider : String) : Bool :=
  let provider := pyLower provider
  match dictLookup provider F.models with
  | none => false
  | some _ => true

/-- Live adapter bound to one backend, as produced by a successful create_model:
the provider id of its class and the model name it was instantiated with.  This
is the value of self.current_model in UniversalChatBot. -/
structure Adapter where
  provider : String
  model_name : String
  deriving DecidableEq, Repr

/-- The ai_provider slot of self.config: provider id and optional model name. -/
structure AIProviderConfig where
  provider : String
  model : Option String
  deriving DecidableEq, Repr

/-- Session state touched by provider switching: the configuration and the active
adapter (self.config and self.current_model in UniversalChatBot). -/
structure BotState where
  config : AIProviderConfig
  current_model : Option Adapter
  deriving DecidableEq, Repr

/-- View of ModelFactory as called from UniversalChatBot: the provider listing,
the availability test, and the combined outcome of create_model followed by the
adapter instantiation, where none models a raised exception.  Construction
outcomes depend on installed packages, keys and the network, so this call
boundary is a parameter of the session embedding; the pure registry behaviour of
the same methods is embedded concretely above. -/
structure FactoryView where
  providers : List String
  avail : String → Bool
  create : String → Option String → Option Adapter

/-- Embedding of UniversalChatBot.setup_ai_model (src/universal_chatbot.py lines
76 to 110): build an adapter for the configured provider and model; every
exception is caught, the fallback then tries create_model for gemini, and when
both attempts fail the previous current_model is kept.  The method never
raises. -/
def setup_ai_model (F : FactoryView) (s : BotState) : BotState :=
  match F.create s.config.provider s.config.model with
  | some a => { s with current_model := some a }
  | none =>
      match F.create "gemini" none with
      | some a => { s with current_model := some a }
      | none => s

/-- Fixed failover priority order of auto_switch_provider
(src/universal_chatbot.py line 493). -/
def provider_priority : List String := ["openai", "claude", "gemini"]

/-- Default model names set while switching (src/universal_chatbot.py lines 514
to 520). -/
def default_models : List (String × String) :=
  [("gemini", "gemini-1.5-flash"),
   ("openai", "gpt-3.5-turbo"),
   ("claude", "claude-3-haiku-20240307")]

/-- Model name written into the config for a switch candidate: the
default_models entry when the candidate has one, otherwise the previous
configured model (src/universal_chatbot.py lines 514 to 520). -/
def switch_model (p : String) (old : Option String) : Option String :=
  match dictLookup p default_models with
  | some m => some m
  | none => old

/-- Candidate order tried by UniversalChatBot.auto_switch_provider
(src/universal_chatbot.py lines 479 to 504): the registered providers that are
available and differ from the current and excluded ids, with the members of
provider_priority first and the remaining candidates in registration order. -/
def auto_switch_candidates (F : FactoryView) (current : String)
    (exclude : Option String) : List String :=
  let available_providers := F.providers.filter (fun p =>
    F.avail p && (pyLower p != current) &&
      (match exclude with
       | none => true
       | some e => pyLower p != pyLower e))
  let prioritized := provider_priority.filter (fun q => available_providers.contains q)
  prioritized ++ available_providers.filter (fun p => !(prioritized.contains p))

/-- One pass of the for loop of auto_switch_provider (src/universal_chatbot.py
lines 507 to 550) over the candidate list.  For each candidate the config is
updated through switch_model, setup_ai_model runs, and the candidate counts as
successful when current_model is not None afterwards; on failure only the
provider field of the config is restored before the next candidate is tried. -/
def auto_switch_go (F : FactoryView) (current : String) :
    List String → BotState → BotState × Bool
  | [], s => (s, false)
  | p :: rest, s =>
      let cfg : AIProviderConfig :=
        { provider := p, model := switch_model p s.config.model }
      let s1 := setup_ai_model F { s with config := cfg }
      match s1.current_model with
      | some _ => (s1, true)
      | none =>
          auto_switch_go F current rest
            { s1 with config := { s1.config with provider := current } }

/-- Embedding of UniversalChatBot.auto_switch_provider (src/universal_chatbot.py
lines 469 to 550): compute the candidate order and try the candidates in turn.
Returns the final state and whether a switch was reported successful. -/
def auto_switch_provider (F : FactoryView) (s : BotState)
    (exclude : Option String) : BotState × Bool :=
  let current := pyLower s.config.provider
  auto_switch_go F current (auto_switch_candidates F current exclude) s

/-- Environment of one chat turn: the factory view plus the behaviour of
current_model.invoke for each adapter and history; ok carries the content of the
returned AIMessage, error the text of the raised exception. -/
structure ChatEnv where
  F : FactoryView
  invoke : Adapter → List Message → Except String String

/-- Embedding of lines 675 to 678 of src/universal_chatbot.py: when the last
history entry is a HumanMessage it is popped and immediately appended again
before the retry. -/
def reassertPending (hist : List Message) : List Message :=
  match hist.getLast? with
  | some m => if m.role = Role.human then hist.dropLast ++ [m] else hist
  | none => hist

deriving instance DecidableEq for Except

/-- Observable outcome of the retry loop of one turn: the returned response or
the raised error, the session state, the conversation history, and a count of
the calls made to current_model.invoke (ghost instrumentation, not program
state). -/
structure TurnResult where
  outcome : Except String Message
  state : BotState
  history : List Message
  attempts : Nat
  deriving DecidableEq, Repr

/-- Embedding of the retry loop of UniversalChatBot.chat_loop
(src/universal_chatbot.py lines 656 to 686).  The fuel argument is max_retries
minus retry_count, so the initial call uses fuel 3; the loop guard
retry_count < max_retries is fuel positive and the switch guard
retry_count < max_retries - 1 is fuel above one.  The fuel 0 case would leave the
while loop with response still None; it is unreachable from fuel 3 because the
switch branch recurses only with positive remaining fuel.  A missing
current_model would raise an AttributeError on the None object, re-raised as a
non-quota error; chat_loop returns before the loop in that case. -/
def retry_loop (env : ChatEnv) : Nat → BotState → List Message → TurnResult
  | 0, s, hist =>
      { outcome := Except.error "", state := s, history := hist, attempts := 0 }
  | fuel + 1, s, hist =>
      match s.current_model with
      | none =>
          { outcome := Except.error "AttributeError: NoneType", state := s,
            history := hist, attempts := 0 }
      | some a =>
          match env.invoke a hist with
          | Except.ok content =>
              { outcome := Except.ok (Message.ai content), state := s,
                history := hist ++ [Message.ai content], attempts := 1 }
          | Except.error e =>
              if is_quota_error e && fuel > 0 then
                match auto_switch_provider env.F s (some s.config.provider) with
                | (s1, true) =>
                    let r := retry_loop env fuel s1 (reassertPending hist)
                    { r with attempts := r.attempts + 1 }
                | (s1, false) =>
                    { outcome := Except.error e, state := s1, history := hist,
                      attempts := 1 }
              else
                { outcome := Except.error e, state := s, history := hist,
                  attempts := 1 }

/-- Python slice hist[-k:]: the last k entries, except that the index -0 equals
0, so k = 0 yields the whole list. -/
def pySliceLast {α : Type} (k : Nat) (l : List α) : List α :=
  if k = 0 then l else l.drop (l.length - k)

/-- Embedding of the history cap (src/universal_chatbot.py lines 712 to 715):
when the history is longer than max_history it is replaced by the slice
hist[-max_history:]. -/
def truncate_history (max_history : Nat) (hist : List Message) : List Message :=
  if hist.length > max_history then pySliceLast max_history hist else hist

/-- One non-command turn of UniversalChatBot.chat_loop (src/universal_chatbot.py
lines 652 to 715): the user text is appended as a HumanMessage, the retry loop
runs with max_retries three, and on success the history cap is applied; a raised
error skips the cap because control moves to the except handler of the loop. -/
def send_turn (env : ChatEnv) (max_history : Nat) (s : BotState)
    (hist : List Message) (user_input : String) : TurnResult :=
  let r := retry_loop env 3 s (hist ++ [Message.human user_input])
  match r.outcome with
  | Except.ok _ => { r with history := truncate_history max_history r.history }
  | Except.error _ => r

/-- History update of one successful turn: append the HumanMessage and the
returned AIMessage, then apply the cap.  This is the history effect of the
success path of send_turn, see the lemma send_turn_history below. -/
def send_success (max_history : Nat) (hist : List Message) (u c : String) : List Message :=
  truncate_history max_history (hist ++ [Message.human u, Message.ai c])

/-- History after a sequence of successful turns starting from an empty
history. -/
def run_turns (max_history : Nat) (turns : List (String × String)) : List Message :=
  turns.foldl (fun hist t => send_success max_history hist t.1 t.2) []

/-- Flat conversation of a turn sequence with no cap applied. -/
def full_trace : List (String × String) → List Message
  | [] => []
  | t :: ts => Message.human t.1 :: Message.ai t.2 :: full_trace ts

/-- Factory view with no provider, used by a concrete non-quota scenario. -/
def c2Factory : FactoryView :=
  { providers := [], avail := fun _ => false, create := fun _ _ => none }

/-- Environment whose active adapter raises a non-quota error on every call. -/
def c2Env : ChatEnv :=
  { F := c2Factory, invoke := fun _ _ => Except.error "invalid request body" }

/-- Session with an active OpenAI adapter. -/
def c2State : BotState :=
  { config := { provider := "openai", model := some "gpt-3.5-turbo" },
    current_model := some { provider := "openai", model_name := "gpt-3.5-turbo" } }

/-- Factory view with the three registered providers, all constructible. -/
def c3Factory : FactoryView :=
  { providers := ["gemini", "openai", "claude"],
    avail := fun _ => true,
    create := fun p m => some { provider := p, model_name := m.getD "gemini-1.5-flash" } }

/-- Session with an active Gemini adapter. -/
def c3State : BotState :=
  { config := { provider := "gemini", model := some "gemini-1.5-flash" },
    current_model := some { provider := "gemini", model_name := "gemini-1.5-flash" } }

/-- Environment in which every provider raises a quota error on every call. -/
def c4Env : ChatEnv :=
  { F := c3Factory, invoke := fun _ _ => Except.error "429 rate limit" }

/-- Factory view in which constructing the Claude adapter fails while the Gemini
fallback construction succeeds. -/
def c7FailFactory : FactoryView :=
  { providers := ["gemini", "openai", "claude"],
    avail := fun _ => true,
    create := fun p m =>
      if p = "claude" then none
      else some { provider := p, model_name := m.getD "gemini-1.5-flash" } }

/-- Session with an active OpenAI adapter, about to fail over. -/
def c7FailState : BotState :=
  { config := { provider := "openai", model := some "gpt-3.5-turbo" },
    current_model := some { provider := "openai", model_name := "gpt-3.5-turbo" } }

/-- Factory view as UniversalChatBot obtains it from ModelFactory: the provider
listing is get_available_providers and the availability test is
is_provider_available of the embedded registry; the construction outcome stays
an environment parameter because it depends on installed packages and keys. -/
def factoryViewOf {α : Type} (F0 : Factory α)
    (create : String → Option String → Option Adapter) : FactoryView :=
  { providers := get_available_providers F0,
    avail := fun p => is_provider_available F0 p,
    create := create }

/-- Registry whose Claude entry records a missing client dependency while the
other two backends are loaded. -/
def c3Registry : Factory AdapterClass :=
  { models := [("gemini", { dependencyLoaded := true }),
               ("openai", { dependencyLoaded := true }),
               ("claude", { dependencyLoaded := false })],
    default_models := default_models }

/-- Construction outcomes consistent with c3Registry: creating the Claude
adapter raises (its __init__ guard sees the missing dependency), the others
succeed. -/
def c3Create : String → Option String → Option Adapter :=
  fun p m =>
    if p = "claude" then none
    else some { provider := p, model_name := m.getD "gemini-1.5-flash" }

/-- Session with an active OpenAI adapter, about to hit a quota error. -/
def c3FailoverState : BotState :=
  { config := { provider := "openai", model := some "gpt-3.5-turbo" },
    current_model := some { provider := "openai", model_name := "gpt-3.5-turbo" } }

/-- Registry in which the Claude entry records a missing client dependency. -/
def c8Factory : Factory AdapterClass :=
  { models := [("gemini", { dependencyLoaded := true }),
               ("openai", { dependencyLoaded := true }),
               ("claude", { dependencyLoaded := false })],
    default_models := default_models }

/-! Helper lemmas. -/

theorem toNat_ofNat_valid (n : Nat) (h : n.isValidChar) : (Char.ofNat n).toNat = n := by
  simp [Char.ofNat, h, Char.toNat, Char.ofNatAux, UInt32.toNat, UInt32.ofNatCore]

theorem lowerChar_idem (c : Char) : lowerChar (lowerChar c) = lowerChar c := by
  unfold lowerChar
  by_cases h : 65 ≤ c.toNat ∧ c.toNat ≤ 90
  · rw [if_pos h]
    have hv : (c.toNat + 32).isValidChar := by
      constructor
      omega
    have ht : (Char.ofNat (c.toNat + 32)).toNat = c.toNat + 32 := toNat_ofNat_valid _ hv
    have hn : ¬ (65 ≤ (Char.ofNat (c.toNat + 32)).toNat ∧
        (Char.ofNat (c.toNat + 32)).toNat ≤ 90) := by
      rw [ht]
      omega
    rw [if_neg hn]
  · rw [if_neg h, if_neg h]

theorem pyLower_idem (s : String) : pyLower (pyLower s) = pyLower s := by
  show String.mk (List.map lowerChar (List.map lowerChar s.data)) = String.mk (List.map lowerChar s.data)
  rw [List.map_map]
  exact congrArg String.mk (List.map_congr_left (fun c _ => lowerChar_idem c))

theorem dictLookup_insert_self {α : Type} (k : String) (v : α) :
    ∀ d : List (String × α), dictLookup k (dictInsert k v d) = some v
  | [] => by simp [dictInsert, dictLookup]
  | (k1, v1) :: rest => by
      by_cases h : k1 = k
      · simp [dictInsert, dictLookup, h]
      · simp [dictInsert, dictLookup, h, dictLookup_insert_self k v rest]

theorem mem_keys_dictInsert {α : Type} (k : String) (v : α) :
    ∀ d : List (String × α), k ∈ (dictInsert k v d).map (fun kv => kv.1)
  | [] => by simp [dictInsert]
  | (k1, v1) :: rest => by
      by_cases h : k1 = k
      · simp [dictInsert, h]
      · simp only [dictInsert, if_neg h, List.map_cons, List.mem_cons]
        exact Or.inr (mem_keys_dictInsert k v rest)

theorem reassertPending_eq (hist : List Message) : reassertPending hist = hist := by
  rcases List.eq_nil_or_concat hist with h | ⟨l, m, h⟩
  · subst h
    rfl
  · have h2 : hist = l ++ [m] := by simpa [List.concat_eq_append] using h
    subst h2
    unfold reassertPending
    rw [List.getLast?_concat]
    by_cases hr : m.role = Role.human
    · simp [hr, List.dropLast_concat]
    · simp [hr]

theorem retry_loop_attempts_le (env : ChatEnv) :
    ∀ (fuel : Nat) (s : BotState) (hist : List Message),
      (retry_loop env fuel s hist).attempts ≤ fuel := by
  intro fuel
  induction fuel with
  | zero =>
      intro s hist
      simp [retry_loop]
  | succ n ih =>
      intro s hist
      cases hm : s.current_model with
      | none => simp [retry_loop, hm]
      | some a =>
          cases hi : env.invoke a hist with
          | ok content => simp [retry_loop, hm, hi]
          | error e =>
              by_cases hcond : (is_quota_error e && decide (n > 0)) = true
              · cases hsw : auto_switch_provider env.F s (some s.config.provider) with
                | mk s1 b =>
                    cases b with
                    | false => simp [retry_loop, hm, hi, hcond, hsw]
                    | true =>
                        have hrec := ih s1 (reassertPending hist)
                        simp [retry_loop, hm, hi, hcond, hsw]
                        omega
              · simp [retry_loop, hm, hi, hcond]

theorem retry_loop_spec (env : ChatEnv) :
    ∀ (fuel : Nat) (s : BotState) (hist : List Message),
      (∃ c, (retry_loop env fuel s hist).outcome = Except.ok (Message.ai c) ∧
            (retry_loop env fuel s hist).history = hist ++ [Message.ai c]) ∨
      (∃ e, (retry_loop env fuel s hist).outcome = Except.error e ∧
            (retry_loop env fuel s hist).history = hist) := by
  intro fuel
  induction fuel with
  | zero =>
      intro s hist
      exact Or.inr ⟨"", rfl, rfl⟩
  | succ n ih =>
      intro s hist
      cases hm : s.current_model with
      | none =>
          refine Or.inr ⟨"AttributeError: NoneType", ?_, ?_⟩ <;> simp [retry_loop, hm]
      | some a =>
          cases hi : env.invoke a hist with
          | ok content =>
              refine Or.inl ⟨content, ?_, ?_⟩ <;> simp [retry_loop, hm, hi]
          | error e =>
              by_cases hcond : (is_quota_error e && decide (n > 0)) = true
              · cases hsw : auto_switch_provider env.F s (some s.config.provider) with
                | mk s1 b =>
                    cases b with
                    | false =>
                        refine Or.inr ⟨e, ?_, ?_⟩ <;> simp [retry_loop, hm, hi, hcond, hsw]
                    | true =>
                        have hrec := ih s1 (reassertPending hist)
                        rw [reassertPending_eq] at hrec
                        rcases hrec with ⟨c, hoc, hhc⟩ | ⟨e2, hoe, hhe⟩
                        · refine Or.inl ⟨c, ?_, ?_⟩ <;>
                            simp [retry_loop, hm, hi, hcond, hsw, reassertPending_eq, hoc, hhc]
                        · refine Or.inr ⟨e2, ?_, ?_⟩ <;>
                            simp [retry_loop, hm, hi, hcond, hsw, reassertPending_eq, hoe, hhe]
              · refine Or.inr ⟨e, ?_, ?_⟩ <;> simp [retry_loop, hm, hi, hcond]

theorem retry_loop_all_quota (env : ChatEnv)
    (hq : ∀ (a : Adapter) (h : List Message), ∃ e,
        env.invoke a h = Except.error e ∧ is_quota_error e = true) :
    ∀ (fuel : Nat) (s : BotState) (hist : List Message),
      ∃ e, (retry_loop env fuel s hist).outcome = Except.error e := by
  intro fuel
  induction fuel with
  | zero =>
      intro s hist
      exact ⟨"", rfl⟩
  | succ n ih =>
      intro s hist
      cases hm : s.current_model with
      | none => exact ⟨"AttributeError: NoneType", by simp [retry_loop, hm]⟩
      | some a =>
          obtain ⟨e, he, hqe⟩ := hq a hist
          by_cases hcond : (is_quota_error e && decide (n > 0)) = true
          · cases hsw : auto_switch_provider env.F s (some s.config.provider) with
            | mk s1 b =>
                cases b with
                | false => exact ⟨e, by simp [retry_loop, hm, he, hcond, hsw]⟩
                | true =>
                    obtain ⟨e2, he2⟩ := ih s1 (reassertPending hist)
                    exact ⟨e2, by simp [retry_loop, hm, he, hcond, hsw, he2]⟩
          · exact ⟨e, by simp [retry_loop, hm, he, hcond]⟩

theorem send_turn_history (env : ChatEnv) (max_history : Nat) (s : BotState)
    (hist : List Message) (u : String) :
    (∃ c, (send_turn env max_history s hist u).outcome = Except.ok (Message.ai c) ∧
          (send_turn env max_history s hist u).history =
            truncate_history max_history (hist ++ [Message.human u, Message.ai c])) ∨
    (∃ e, (send_turn env max_history s hist u).outcome = Except.error e ∧
          (send_turn env max_history s hist u).history = hist ++ [Message.human u]) := by
  rcases retry_loop_spec env 3 s (hist ++ [Message.human u]) with ⟨c, hoc, hhc⟩ | ⟨e, hoe, hhe⟩
  · refine Or.inl ⟨c, ?_, ?_⟩ <;> simp [send_turn, hoc, hhc]
  · refine Or.inr ⟨e, ?_, ?_⟩ <;> simp [send_turn, hoe, hhe]

/-! Claim theorems. -/

/-- C1: the claim says every adapter re-raises backend failures and never returns
a normal Assistant message embedding the error text.  Evaluating the embedded
adapters at a failing backend call shows the Gemini and Claude adapters return a
normal AIMessage reading Error: followed by the raw error text, while the OpenAI
and Groq adapters re-raise; the claim fails on the Gemini and Claude code. -/
theorem adapters_swallow_errors :
    GeminiModel.invoke (fun _ => Except.error "429 You exceeded your current quota.") []
      = Except.ok (Message.ai "Error: 429 You exceeded your current quota.") ∧
    ClaudeModel.invoke (fun _ => Except.error "429 You exceeded your current quota.") []
      = Except.ok (Message.ai "Error: 429 You exceeded your current quota.") ∧
    OpenAIModel.invoke (fun _ => Except.error "429 You exceeded your current quota.") []
      = Except.error "429 You exceeded your current quota." ∧
    GroqModel.invoke (fun _ => Except.error "429 You exceeded your current quota.") []
      = Except.error "429 You exceeded your current quota." :=
  ⟨rfl, rfl, rfl, rfl⟩

/-- C8: the claim says is_provider_available is true iff the backend client
library can be imported, in particular false when the dependency is missing.  In
the code the availability check reduces to registry membership because __new__
never runs the __init__ guard: a registered provider whose dependency flag is
false still yields true, and the result is independent of the class value, so
also of any API key state. -/
theorem is_provider_available_ignores_dependency :
    is_provider_available c8Factory "claude" = true ∧
    dictLookup "claude" c8Factory.models = some { dependencyLoaded := false } ∧
    ∀ {α : Type} (F : Factory α) (p : String),
      is_provider_available F p = (dictLookup (pyLower p) F.models).isSome := by
  refine ⟨by decide, by decide, ?_⟩
  intro α F p
  unfold is_provider_available
  cases h : dictLookup (pyLower p) F.models <;> simp [h]

/-- C9: the quota classifier is a pure function of the error text that holds
exactly when the lower-cased text contains one of the fixed indicator
substrings, and the indicator list contains all eight substrings named by the
claim. -/
theorem is_quota_error_characterization (s : String) :
    (is_quota_error s = true ↔
      ∃ indicator, indicator ∈ quota_indicators ∧
        containsSubstr (pyLower s) indicator = true) ∧
    (["quota", "rate limit", "429", "exceeded your current quota",
      "requests per day", "free tier", "billing details",
      "resourceexhausted"].all (fun i => quota_indicators.contains i) = true) := by
  constructor
  · simp [is_quota_error, List.any_eq_true]
  · decide

/-- C10: all ModelFactory operations lower-case the provider id at entry, so each
behaves identically on p and on the lower-cased p, and a provider registered
under any casing is afterwards created, listed and checked under its lower-cased
id. -/
theorem factory_case_insensitive {α μ : Type} (F : Factory α) (p : String)
    (m : Option String) (cls : α) (catalogOf : α → List μ) (mn : String) :
    create_model F p m = create_model F (pyLower p) m ∧
    is_provider_available F p = is_provider_available F (pyLower p) ∧
    get_provider_models F catalogOf p = get_provider_models F catalogOf (pyLower p) ∧
    register_model F p cls = register_model F (pyLower p) cls ∧
    create_model (register_model F p cls) (pyLower p) (some mn) = CreateResult.ok cls mn ∧
    is_provider_available (register_model F p cls) (pyLower p) = true ∧
    pyLower p ∈ get_available_providers (register_model F p cls) := by
  refine ⟨?_, ?_, ?_, ?_, ?_, ?_, ?_⟩
  · simp [create_model, pyLower_idem]
  · simp [is_provider_available, pyLower_idem]
  · simp [get_provider_models, pyLower_idem]
  · simp [register_model, pyLower_idem]
  · simp [create_model, register_model, pyLower_idem, dictLookup_insert_self]
  · simp [is_provider_available, register_model, pyLower_idem, dictLookup_insert_self]
  · simpa [get_available_providers, register_model] using
      mem_keys_dictInsert (pyLower p) cls F.models

/-- C2: when the active adapter raises an error whose text is not classified as
quota-related, the turn re-raises exactly that error, performs no provider
switch (state, so also the active adapter, is unchanged), and the history ends
with the just-appended HumanMessage and no Assistant message, after exactly one
invoke attempt. -/
theorem nonquota_error_propagates (env : ChatEnv) (max_history : Nat) (s : BotState)
    (hist : List Message) (u e : String) (a : Adapter)
    (hm : s.current_model = some a)
    (herr : env.invoke a (hist ++ [Message.human u]) = Except.error e)
    (hq : is_quota_error e = false) :
    send_turn env max_history s hist u =
      { outcome := Except.error e, state := s,
        history := hist ++ [Message.human u], attempts := 1 } := by
  simp [send_turn, retry_loop, hm, herr, hq]

/-- Witness for C2 at a concrete input: the error text of scenario four of the
spec, which no quota indicator matches. -/
theorem nonquota_error_propagates_witness :
    c2State.current_model = some { provider := "openai", model_name := "gpt-3.5-turbo" } ∧
    c2Env.invoke { provider := "openai", model_name := "gpt-3.5-turbo" }
        ([] ++ [Message.human "hi"]) = Except.error "invalid request body" ∧
    is_quota_error "invalid request body" = false ∧
    send_turn c2Env 20 c2State [] "hi" =
      { outcome := Except.error "invalid request body", state := c2State,
        history := [] ++ [Message.human "hi"], attempts := 1 } :=
  ⟨rfl, rfl, by decide,
    nonquota_error_propagates c2Env 20 c2State [] "hi" "invalid request body"
      { provider := "openai", model_name := "gpt-3.5-turbo" } rfl rfl (by decide)⟩

/-- C4: when every invoke attempt raises a quota-classified error, the retry loop
of a turn terminates, makes at most three invoke attempts, and raises. -/
theorem bounded_retries (env : ChatEnv) (max_history : Nat) (s : BotState)
    (hist : List Message) (u : String)
    (hq : ∀ (a : Adapter) (h : List Message), ∃ e,
        env.invoke a h = Except.error e ∧ is_quota_error e = true) :
    (send_turn env max_history s hist u).attempts ≤ 3 ∧
    ∃ e, (send_turn env max_history s hist u).outcome = Except.error e := by
  obtain ⟨e, he⟩ := retry_loop_all_quota env hq 3 s (hist ++ [Message.human u])
  constructor
  · have hle := retry_loop_attempts_le env 3 s (hist ++ [Message.human u])
    simpa [send_turn, he] using hle
  · exact ⟨e, by simp [send_turn, he]⟩

/-- Witness for C4 at a concrete input: every provider raises a rate limit
error and the turn raises after at most three attempts. -/
theorem bounded_retries_witness :
    (∀ (a : Adapter) (h : List Message), ∃ e,
        c4Env.invoke a h = Except.error e ∧ is_quota_error e = true) ∧
    (send_turn c4Env 20 c3State [] "hi").attempts ≤ 3 ∧
    ∃ e, (send_turn c4Env 20 c3State [] "hi").outcome = Except.error e :=
  ⟨fun a h => ⟨"429 rate limit", rfl, by decide⟩,
    bounded_retries c4Env 20 c3State [] "hi"
      (fun a h => ⟨"429 rate limit", rfl, by decide⟩)⟩

/-- C5: within one turn, however many automatic provider switches happen before
success or final failure, the retry loop leaves the history equal to the prior
history plus exactly one HumanMessage for the turn, optionally followed by one
AIMessage; the segment appended for the turn contains exactly one HumanMessage,
so the pending user utterance is never duplicated. -/
theorem single_pending_human (env : ChatEnv) (fuel : Nat) (s : BotState)
    (hist : List Message) (u : String) :
    ((retry_loop env fuel s (hist ++ [Message.human u])).history =
        hist ++ [Message.human u] ∨
      ∃ c, (retry_loop env fuel s (hist ++ [Message.human u])).history =
        hist ++ [Message.human u, Message.ai c]) ∧
    ((retry_loop env fuel s (hist ++ [Message.human u])).history.drop
        hist.length).countP (fun m => m.role == Role.human) = 1 := by
  rcases retry_loop_spec env fuel s (hist ++ [Message.human u]) with ⟨c, _, hh⟩ | ⟨e, _, hh⟩
  · constructor
    · exact Or.inr ⟨c, by simp [hh]⟩
    · rw [hh, List.append_assoc, List.drop_left]
      rfl
  · constructor
    · exact Or.inl hh
    · rw [hh, List.drop_left]
      rfl

/-- Helper, general in the availability predicate of the factory view: the
failover candidate order is the fixed priority list openai, claude, gemini
restricted to the providers that are listed, pass the availability test and
differ from the failed provider, followed by the remaining candidates in
registration order; and whenever an active adapter exists, the provider switched
to is the first candidate of that order. -/
theorem auto_switch_priority_general (F : FactoryView) (s : BotState) :
    (auto_switch_candidates F (pyLower s.config.provider) (some s.config.provider) =
       provider_priority.filter
         (fun p => F.providers.contains p &&
           (F.avail p && (pyLower p != pyLower s.config.provider))) ++
       (F.providers.filter
         (fun p => F.avail p && (pyLower p != pyLower s.config.provider))).filter
         (fun p => !(provider_priority.contains p))) ∧
    (∀ (c : String) (cs : List String) (x : Adapter),
       s.current_model = some x →
       auto_switch_candidates F (pyLower s.config.provider) (some s.config.provider)
         = c :: cs →
       (auto_switch_provider F s (some s.config.provider)).2 = true ∧
       (auto_switch_provider F s (some s.config.provider)).1.config.provider = c) := by
  constructor
  · have hdup : F.providers.filter
        (fun p => F.avail p && (pyLower p != pyLower s.config.provider) &&
          (pyLower p != pyLower s.config.provider)) =
        F.providers.filter
          (fun p => F.avail p && (pyLower p != pyLower s.config.provider)) :=
      List.filter_congr (fun p _ => by rw [Bool.and_assoc, Bool.and_self])
    have hcont : ∀ q, (F.providers.filter
        (fun p => F.avail p && (pyLower p != pyLower s.config.provider))).contains q =
        (F.providers.contains q &&
          (F.avail q && (pyLower q != pyLower s.config.provider))) := by
      intro q
      rw [Bool.eq_iff_iff]
      simp [List.elem_iff, List.mem_filter]
    have hrem : (F.providers.filter
        (fun p => F.avail p && (pyLower p != pyLower s.config.provider))).filter
          (fun p => !((provider_priority.filter
            (fun q => F.providers.contains q &&
              (F.avail q && (pyLower q != pyLower s.config.provider)))).contains p)) =
        (F.providers.filter
          (fun p => F.avail p && (pyLower p != pyLower s.config.provider))).filter
          (fun p => !(provider_priority.contains p)) := by
      refine List.filter_congr (fun p hp => ?_)
      have hp2 := List.mem_filter.mp hp
      have hc : (provider_priority.filter
          (fun q => F.providers.contains q &&
            (F.avail q && (pyLower q != pyLower s.config.provider)))).contains p =
          provider_priority.contains p := by
        rw [Bool.eq_iff_iff]
        simp only [List.elem_iff, List.mem_filter]
        constructor
        · intro h
          exact h.1
        · intro h
          refine ⟨h, ?_⟩
          rw [Bool.and_eq_true]
          constructor
          · rw [List.elem_iff]
            exact hp2.1
          · exact hp2.2
      rw [hc]
    simp only [auto_switch_candidates]
    rw [hdup, List.filter_congr (fun q _ => hcont q), hrem]
  · intro c cs x hx hcand
    simp only [auto_switch_provider]
    rw [hcand]
    cases hc1 : F.create c (switch_model c s.config.model) with
    | some a1 =>
        constructor <;> simp [auto_switch_go, setup_ai_model, hc1]
    | none =>
        cases hc2 : F.create "gemini" none with
        | some a2 =>
            constructor <;> simp [auto_switch_go, setup_ai_model, hc1, hc2]
        | none =>
            constructor <;> simp [auto_switch_go, setup_ai_model, hc1, hc2, hx]

/-- C3: the claim filters failover candidates by dependency availability, so
with the Claude client dependency missing and OpenAI failing it demands Gemini
as the replacement.  The embedded code consults is_provider_available, which is
registry membership and never reads the dependency state, so Claude is
considered first and the switch is reported as a success to Claude: the claim as
stated is false at this input.  (Constructing the Claude adapter does fail, but
only inside setup_ai_model, whose silent Gemini fallback leaves the
configuration and the user-facing switch report naming Claude.) -/
theorem failover_dependency_counterexample :
    dictLookup "claude" c3Registry.models = some { dependencyLoaded := false } ∧
    is_provider_available c3Registry "claude" = true ∧
    auto_switch_candidates (factoryViewOf c3Registry c3Create)
      (pyLower c3FailoverState.config.provider)
      (some c3FailoverState.config.provider) = ["claude", "gemini"] ∧
    (auto_switch_provider (factoryViewOf c3Registry c3Create) c3FailoverState
      (some c3FailoverState.config.provider)).2 = true ∧
    (auto_switch_provider (factoryViewOf c3Registry c3Create) c3FailoverState
      (some c3FailoverState.config.provider)).1.config.provider = "claude" := by
  refine ⟨?_, ?_, ?_, ?_, ?_⟩ <;> decide

/-- C3 as amended: with the factory view instantiated faithfully (the provider
listing is get_available_providers, availability is is_provider_available), the
replacement candidates are the fixed priority order openai, claude, gemini
restricted to the providers that are registered and differ from the failed
provider, followed by the remaining registered providers in registration order;
the availability conjunct of the filter is registry membership (second
conjunct), so a registered provider with a missing client dependency is selected
like any other.  Whenever an active adapter exists, the provider switched to is
the first candidate of that order. -/
theorem failover_priority_registered {α : Type} (F0 : Factory α)
    (create : String → Option String → Option Adapter) (s : BotState) :
    (auto_switch_candidates (factoryViewOf F0 create) (pyLower s.config.provider)
        (some s.config.provider) =
       provider_priority.filter
         (fun p => (get_available_providers F0).contains p &&
           (is_provider_available F0 p && (pyLower p != pyLower s.config.provider))) ++
       ((get_available_providers F0).filter
         (fun p => is_provider_available F0 p &&
           (pyLower p != pyLower s.config.provider))).filter
         (fun p => !(provider_priority.contains p))) ∧
    (∀ p, is_provider_available F0 p = (dictLookup (pyLower p) F0.models).isSome) ∧
    (∀ (c : String) (cs : List String) (x : Adapter),
       s.current_model = some x →
       auto_switch_candidates (factoryViewOf F0 create) (pyLower s.config.provider)
         (some s.config.provider) = c :: cs →
       (auto_switch_provider (factoryViewOf F0 create) s (some s.config.provider)).2 = true ∧
       (auto_switch_provider (factoryViewOf F0 create) s
         (some s.config.provider)).1.config.provider = c) := by
  refine ⟨?_, ?_, ?_⟩
  · exact (auto_switch_priority_general (factoryViewOf F0 create) s).1
  · intro p
    unfold is_provider_available
    cases h : dictLookup (pyLower p) F0.models <;> simp [h]
  · exact (auto_switch_priority_general (factoryViewOf F0 create) s).2

/-- Witness for the amended C3 at a concrete input: Gemini is active and fails
over; the candidates are openai then claude and the switch lands on openai, the
head of the priority order among the registered, not-failed providers. -/
theorem failover_priority_registered_witness :
    c3State.current_model = some { provider := "gemini", model_name := "gemini-1.5-flash" } ∧
    auto_switch_candidates (factoryViewOf c3Registry c3Create)
      (pyLower c3State.config.provider)
      (some c3State.config.provider) = "openai" :: ["claude"] ∧
    (auto_switch_provider (factoryViewOf c3Registry c3Create) c3State
      (some c3State.config.provider)).2 = true ∧
    (auto_switch_provider (factoryViewOf c3Registry c3Create) c3State
      (some c3State.config.provider)).1.config.provider = "openai" :=
  ⟨rfl, by decide,
    (failover_priority_registered c3Registry c3Create c3State).2.2 "openai" ["claude"]
      { provider := "gemini", model_name := "gemini-1.5-flash" } rfl (by decide)⟩

/-- C7: the claim says every switch is atomic, with configuration and active
adapter never disagreeing.  At this concrete input the Claude adapter fails to
construct, setup_ai_model silently falls back to Gemini, and auto_switch_provider
reports success while the configuration names claude and the active adapter is
the Gemini one: a half-switched state is observable, refuting the claim. -/
theorem switch_not_atomic_counterexample :
    (auto_switch_provider c7FailFactory c7FailState (some "openai")).2 = true ∧
    (auto_switch_provider c7FailFactory c7FailState
      (some "openai")).1.config.provider = "claude" ∧
    (auto_switch_provider c7FailFactory c7FailState
      (some "openai")).1.config.model = some "claude-3-haiku-20240307" ∧
    (auto_switch_provider c7FailFactory c7FailState (some "openai")).1.current_model =
      some { provider := "gemini", model_name := "gemini-1.5-flash" } := by
  refine ⟨?_, ?_, ?_, ?_⟩ <;> decide

/-- C7 as amended: an automatic provider switch is atomic whenever constructing
the adapter of the selected candidate succeeds: the configuration and the active
adapter then both reflect the new provider and its model, with no intermediate
state observable. -/
theorem switch_atomic_on_success (F : FactoryView) (s : BotState)
    (exclude : Option String) (c : String) (cs : List String) (a : Adapter)
    (hcand : auto_switch_candidates F (pyLower s.config.provider) exclude = c :: cs)
    (hcreate : F.create c (switch_model c s.config.model) = some a) :
    auto_switch_provider F s exclude =
      ({ config := { provider := c, model := switch_model c s.config.model },
         current_model := some a }, true) := by
  simp only [auto_switch_provider]
  rw [hcand]
  simp [auto_switch_go, setup_ai_model, hcreate]

/-- Witness for the amended C7 at a concrete input: constructing the OpenAI
adapter succeeds and the switch is fully reflected in configuration and active
adapter. -/
theorem switch_atomic_on_success_witness :
    auto_switch_candidates c3Factory (pyLower c3State.config.provider)
      (some c3State.config.provider) = "openai" :: ["claude"] ∧
    c3Factory.create "openai" (switch_model "openai" c3State.config.model) =
      some { provider := "openai", model_name := "gpt-3.5-turbo" } ∧
    auto_switch_provider c3Factory c3State (some c3State.config.provider) =
      ({ config := { provider := "openai",
                     model := switch_model "openai" c3State.config.model },
         current_model := some { provider := "openai", model_name := "gpt-3.5-turbo" } },
       true) :=
  ⟨by decide, by decide,
    switch_atomic_on_success c3Factory c3State (some c3State.config.provider)
      "openai" ["claude"] { provider := "openai", model_name := "gpt-3.5-turbo" }
      (by decide) (by decide)⟩

theorem full_trace_append (ts : List (String × String)) (t : String × String) :
    full_trace (ts ++ [t]) = full_trace ts ++ [Message.human t.1, Message.ai t.2] := by
  induction ts with
  | nil => rfl
  | cons h tl ih => simp [full_trace, ih]

theorem full_trace_length (ts : List (String × String)) :
    (full_trace ts).length = 2 * ts.length := by
  induction ts with
  | nil => rfl
  | cons h tl ih =>
      simp [full_trace, ih]
      omega

theorem run_turns_append (m : Nat) (ts : List (String × String)) (t : String × String) :
    run_turns m (ts ++ [t]) = send_success m (run_turns m ts) t.1 t.2 := by
  simp [run_turns, List.foldl_append]

/-- C6: the claim says the history after N successful turns has length
min(2N, maxHistory) for every configured cap.  With the cap configured as 0 the
truncation slice hist[-0:] is the whole list, so one successful turn leaves 2
entries where the claim demands min(2, 0) = 0: the claim fails at cap 0. -/
theorem history_cap_counterexample :
    (run_turns 0 [("hi", "hello")]).length = 2 ∧
    (run_turns 0 [("hi", "hello")]).length ≠ min (2 * [("hi", "hello")].length) 0 := by
  constructor <;> decide

/-- C6 as amended: for every configured cap of at least 1, the history after a
sequence of N successful turns is the suffix of the uncapped conversation of
length min(2N, maxHistory): the newest entries in conversation order, truncated
only from the front and never reordered. -/
theorem history_cap (max_history : Nat) (hpos : 1 ≤ max_history)
    (turns : List (String × String)) :
    run_turns max_history turns =
      (full_trace turns).drop
        ((full_trace turns).length - min (2 * turns.length) max_history) ∧
    (run_turns max_history turns).length = min (2 * turns.length) max_history := by
  induction turns using List.reverseRecOn with
  | nil => simp [run_turns, full_trace]
  | append_singleton ts t ih =>
      obtain ⟨ihh, ihl⟩ := ih
      rw [run_turns_append, full_trace_append]
      simp only [send_success]
      rw [ihh]
      have hFlen : (full_trace ts).length = 2 * ts.length := full_trace_length ts
      have happ : (full_trace ts).drop
            ((full_trace ts).length - min (2 * ts.length) max_history) ++
              [Message.human t.1, Message.ai t.2]
          = ((full_trace ts) ++ [Message.human t.1, Message.ai t.2]).drop
              ((full_trace ts).length - min (2 * ts.length) max_history) :=
        (List.drop_append_of_le_length (Nat.sub_le _ _)).symm
      rw [happ]
      have hbig : (((full_trace ts) ++ [Message.human t.1, Message.ai t.2]).drop
            ((full_trace ts).length - min (2 * ts.length) max_history)).length
          = min (2 * ts.length) max_history + 2 := by
        rw [List.length_drop, List.length_append]
        simp only [List.length_cons, List.length_nil]
        omega
      unfold truncate_history
      by_cases hc : (((full_trace ts) ++ [Message.human t.1, Message.ai t.2]).drop
          ((full_trace ts).length - min (2 * ts.length) max_history)).length > max_history
      · rw [if_pos hc]
        rw [hbig] at hc
        unfold pySliceLast
        rw [if_neg (by omega : ¬ max_history = 0)]
        rw [hbig, List.drop_drop]
        have harith : ((full_trace ts).length - min (2 * ts.length) max_history) +
              (min (2 * ts.length) max_history + 2 - max_history)
            = ((full_trace ts) ++ [Message.human t.1, Message.ai t.2]).length -
                min (2 * (ts ++ [t]).length) max_history := by
          rw [List.length_append]
          simp only [List.length_cons, List.length_nil, List.length_append]
          omega
        rw [harith]
        refine ⟨rfl, ?_⟩
        rw [List.length_drop, List.length_append]
        simp only [List.length_cons, List.length_nil, List.length_append]
        omega
      · rw [if_neg hc]
        rw [hbig] at hc
        have harith : ((full_trace ts).length - min (2 * ts.length) max_history)
            = ((full_trace ts) ++ [Message.human t.1, Message.ai t.2]).length -
                min (2 * (ts ++ [t]).length) max_history := by
          rw [List.length_append]
          simp only [List.length_cons, List.length_nil, List.length_append]
          omega
        rw [harith]
        refine ⟨rfl, ?_⟩
        rw [List.length_drop, List.length_append]
        simp only [List.length_cons, List.length_nil, List.length_append]
        omega

/-- Witness for the amended C6 at a concrete input: scenario two of the spec,
a cap of 4 with more than two turns keeps the last four entries. -/
theorem history_cap_witness :
    1 ≤ 4 ∧
    (run_turns 4 [("a", "b"), ("c", "d"), ("e", "f")] =
      (full_trace [("a", "b"), ("c", "d"), ("e", "f")]).drop
        ((full_trace [("a", "b"), ("c", "d"), ("e", "f")]).length -
          min (2 * [("a", "b"), ("c", "d"), ("e", "f")].length) 4) ∧
     (run_turns 4 [("a", "b"), ("c", "d"), ("e", "f")]).length =
       min (2 * [("a", "b"), ("c", "d"), ("e", "f")].length) 4) :=
  ⟨by decide, history_cap 4 (by decide) [("a", "b"), ("c", "d"), ("e", "f")]⟩

end Spec2Proof
